import Mathlib

/-!
# AgentHQ server — shallow embedding

A shallow embedding of the AgentHQ backend (Express + Drizzle storage +
`ws` realtime layer) used to verify its specification.

Modelling conventions:
* Database tables (`shared/schema.ts`) become Lean structures; the whole
  database is a `DB` record of row lists, in insertion order.
* `gen_random_uuid()` and `defaultNow()` are modelled by threading the
  generated id and the current instant as explicit arguments; instants
  are `Nat`.
* SQL `timestamp` nullable columns are `Option Nat`; nullable text
  columns are `Option String`.
* The `jsonb` value column of memories is modelled as an uninterpreted `String`
  (its structure is never inspected by the server).
* Express route handlers become pure functions from the database, the
  authenticated principal and the request data to a `RouteOutcome`:
  the new database, the list of `broadcast` calls performed, and the
  HTTP response.
* The JavaScript `Set` objects holding a websocket client's room
  interests become `Finset (Option String)`: `Set.has`/`add`/`delete`
  are membership/`insert`/`erase`, and `Option` models that
  `message.channelId` evaluates to `undefined` (here `none`) when the
  field is absent from a parsed control frame.
-/

namespace AgentHQ

/-- A row of the `humans` table. -/
structure Human where
  id : String
  email : String
  password : String
  name : String
  avatarUrl : Option String
  createdAt : Nat
  deriving Repr, DecidableEq

/-- A row of the `workspaces` table. -/
structure Workspace where
  id : String
  name : String
  slug : String
  createdAt : Nat
  deriving Repr, DecidableEq

/-- A row of the `workspace_members` junction table. -/
structure WorkspaceMember where
  id : String
  workspaceId : String
  humanId : String
  role : String
  joinedAt : Nat
  deriving Repr, DecidableEq

/-- A row of the `agents` table. -/
structure Agent where
  id : String
  workspaceId : String
  name : String
  description : Option String
  apiKey : String
  avatarUrl : Option String
  isActive : Bool
  lastSeenAt : Option Nat
  createdAt : Nat
  deriving Repr, DecidableEq

/-- A row of the `channels` table. -/
structure Channel where
  id : String
  workspaceId : String
  name : String
  description : Option String
  isPrivate : Bool
  createdAt : Nat
  deriving Repr, DecidableEq

/-- A row of the `messages` table.  `authorType` is the raw string
`"human" | "agent" | "system"` exactly as the code stores it;
`messageType` is the `message_type` enum as a string. -/
structure Message where
  id : String
  channelId : String
  authorType : String
  authorId : Option String
  content : String
  messageType : String
  metadata : Option String
  createdAt : Nat
  deriving Repr, DecidableEq

/-- A row of the `handoffs` table.  `status` and `priority` are the raw
enum strings (`handoff_status`, `handoff_priority`). -/
structure Handoff where
  id : String
  workspaceId : String
  channelId : Option String
  title : String
  description : Option String
  status : String
  priority : String
  fromAgentId : Option String
  toHumanId : Option String
  resolvedAt : Option Nat
  createdAt : Nat
  deriving Repr, DecidableEq

/-- A row of the `memories` table; `value` is the jsonb payload,
modelled as an uninterpreted string. -/
structure Memory where
  id : String
  agentId : String
  key : String
  value : String
  expiresAt : Option Nat
  createdAt : Nat
  updatedAt : Nat
  deriving Repr, DecidableEq

/-- The whole database: one list of rows per table, in insertion order. -/
structure DB where
  humans : List Human
  workspaces : List Workspace
  workspaceMembers : List WorkspaceMember
  agents : List Agent
  channels : List Channel
  messages : List Message
  handoffs : List Handoff
  memories : List Memory
  deriving Repr, DecidableEq

/-- Insert shape for `handoffs` (`insertHandoffSchema` omits `id`,
`createdAt`, `resolvedAt`; the route handlers always supply `status`
and `priority` explicitly). -/
structure InsertHandoff where
  workspaceId : String
  channelId : Option String
  title : String
  description : Option String
  status : String
  priority : String
  fromAgentId : Option String
  toHumanId : Option String
  deriving Repr, DecidableEq

/-- Insert shape for `messages` (`insertMessageSchema` omits `id` and
`createdAt`). -/
structure InsertMessage where
  channelId : String
  authorType : String
  authorId : Option String
  content : String
  messageType : String
  metadata : Option String
  deriving Repr, DecidableEq

/-- Insert shape for `memories` (`insertMemorySchema` omits `id`,
`createdAt`, `updatedAt`). -/
structure InsertMemory where
  agentId : String
  key : String
  value : String
  expiresAt : Option Nat
  deriving Repr, DecidableEq

/-! ## Storage layer (`server/storage.ts`, class `DatabaseStorage`)

A drizzle `select().where(eq(...))` destructured to its first row is
`List.find?`; `insert().values(x).returning()` appends a row built from
`x` plus the generated defaults; `update().set(...).where(...)` maps
over the rows; `delete().where(...)` keeps the non-matching rows. -/

/-- Storage method `DatabaseStorage.getHumanById`. -/
def getHumanById (db : DB) (id : String) : Option Human :=
  db.humans.find? (fun h => h.id == id)

/-- Storage method `DatabaseStorage.getWorkspaceMember`. -/
def getWorkspaceMember (db : DB) (workspaceId humanId : String) :
    Option WorkspaceMember :=
  db.workspaceMembers.find?
    (fun m => m.workspaceId == workspaceId && m.humanId == humanId)

/-- Storage method `DatabaseStorage.getAgent`. -/
def getAgent (db : DB) (id : String) : Option Agent :=
  db.agents.find? (fun a => a.id == id)

/-- Storage method `DatabaseStorage.getAgentByApiKey`: exact lookup on the unique
`api_key` column. -/
def getAgentByApiKey (db : DB) (apiKey : String) : Option Agent :=
  db.agents.find? (fun a => a.apiKey == apiKey)

/-- Storage method `DatabaseStorage.updateAgentLastSeen`: sets `lastSeenAt` to the
current instant on every row with the given id. -/
def updateAgentLastSeen (db : DB) (id : String) (now : Nat) : DB :=
  { db with
    agents := db.agents.map
      (fun a => if a.id == id then { a with lastSeenAt := some now } else a) }

/-- Storage method `DatabaseStorage.getChannel`. -/
def getChannel (db : DB) (id : String) : Option Channel :=
  db.channels.find? (fun c => c.id == id)

/-- Insertion into a list sorted by `createdAt` descending; models one
step of the SQL `ORDER BY created_at DESC`. -/
def insertByCreatedAtDesc (m : Message) : List Message → List Message
  | [] => [m]
  | x :: xs =>
    if x.createdAt ≤ m.createdAt then m :: x :: xs
    else x :: insertByCreatedAtDesc m xs

/-- Sort by `createdAt` descending (models `orderBy(desc(messages.createdAt))`). -/
def sortByCreatedAtDesc : List Message → List Message
  | [] => []
  | m :: ms => insertByCreatedAtDesc m (sortByCreatedAtDesc ms)

/-- Storage method `DatabaseStorage.getMessagesForChannel`.  Mirrors the source
exactly: it filters by channel, orders by `createdAt` descending,
limits, and reverses into chronological order.  The declared `before`
cursor parameter is accepted but — as in the source — never used. -/
def getMessagesForChannel (db : DB) (channelId : String) (limit : Nat)
    (before : Option String) : List Message :=
  let result :=
    (sortByCreatedAtDesc (db.messages.filter
      (fun m => m.channelId == channelId))).take limit
  result.reverse

/-- Storage method `DatabaseStorage.createMessage`. -/
def createMessage (db : DB) (message : InsertMessage) (newId : String)
    (now : Nat) : DB × Message :=
  let newMessage : Message :=
    { id := newId, channelId := message.channelId,
      authorType := message.authorType, authorId := message.authorId,
      content := message.content, messageType := message.messageType,
      metadata := message.metadata, createdAt := now }
  ({ db with messages := db.messages ++ [newMessage] }, newMessage)

/-- Storage method `DatabaseStorage.getHandoff`. -/
def getHandoff (db : DB) (id : String) : Option Handoff :=
  db.handoffs.find? (fun h => h.id == id)

/-- Storage method `DatabaseStorage.createHandoff`; `resolvedAt` is omitted from the
insert schema, so the new row gets the column default `null`. -/
def createHandoff (db : DB) (handoff : InsertHandoff) (newId : String)
    (now : Nat) : DB × Handoff :=
  let newHandoff : Handoff :=
    { id := newId, workspaceId := handoff.workspaceId,
      channelId := handoff.channelId, title := handoff.title,
      description := handoff.description, status := handoff.status,
      priority := handoff.priority, fromAgentId := handoff.fromAgentId,
      toHumanId := handoff.toHumanId, resolvedAt := none, createdAt := now }
  ({ db with handoffs := db.handoffs ++ [newHandoff] }, newHandoff)

/-- Storage method `DatabaseStorage.updateHandoffStatus`: sets `status`, and also sets
`resolvedAt` to the current instant exactly when the new status is
`"RESOLVED"`; returns the first updated row. -/
def updateHandoffStatus (db : DB) (id : String) (status : String)
    (now : Nat) : DB × Option Handoff :=
  let newHandoffs := db.handoffs.map (fun h =>
    if h.id == id then
      if status == "RESOLVED" then
        { h with status := status, resolvedAt := some now }
      else
        { h with status := status }
    else h)
  ({ db with handoffs := newHandoffs }, newHandoffs.find? (fun h => h.id == id))

/-- Storage method `DatabaseStorage.getMemory`: exact `(agentId, key)` lookup. -/
def getMemory (db : DB) (agentId key : String) : Option Memory :=
  db.memories.find? (fun m => m.agentId == agentId && m.key == key)

/-- Storage method `DatabaseStorage.setMemory`: upsert implemented as delete of every
row matching `(agentId, key)` followed by insert of the new row. -/
def setMemory (db : DB) (memory : InsertMemory) (newId : String)
    (now : Nat) : DB × Memory :=
  let afterDelete := db.memories.filter
    (fun m => !(m.agentId == memory.agentId && m.key == memory.key))
  let newMemory : Memory :=
    { id := newId, agentId := memory.agentId, key := memory.key,
      value := memory.value, expiresAt := memory.expiresAt,
      createdAt := now, updatedAt := now }
  ({ db with memories := afterDelete ++ [newMemory] }, newMemory)

/-- Storage method `DatabaseStorage.deleteMemory`. -/
def deleteMemory (db : DB) (agentId key : String) : DB :=
  { db with
    memories := db.memories.filter
      (fun m => !(m.agentId == agentId && m.key == key)) }

/-! ## Authentication (`server/auth.ts`)

Express middleware either responds with an error status or attaches the
principal to the request and continues; we model this as a sum.  JWT
verification (`jwt.verify` returning a payload whose `humanId` field
identifies the human) is cryptographic and is abstracted as a function
`verifyToken : String → Option String` from the raw token to the
contained human id. -/

/-- Character-list core of `strStartsWith`. -/
def strStartsWithAux : List Char → List Char → Bool
  | _, [] => true
  | [], _ :: _ => false
  | c :: cs, p :: ps => c == p && strStartsWithAux cs ps

/-- JavaScript `String.prototype.startsWith`, modelled directly over
the character list so that it evaluates by reduction. -/
def strStartsWith (s pre : String) : Bool :=
  strStartsWithAux s.data pre.data

/-- Outcome of an authentication middleware: either a rejected request
(HTTP status plus message), or a principal attached to the request.  A
successful agent authentication also carries the database as mutated by
the `updateAgentLastSeen` side effect. -/
inductive AuthResult where
  | reject (status : Nat) (message : String)
  | agentOk (db : DB) (agent : Agent)
  | humanOk (user : Human)
  deriving Repr, DecidableEq

/-- JavaScript truthiness of an optional string header combined with a
guard, as in `apiKey && apiKey.startsWith("sk_")`: absent and empty
strings are falsy. -/
def headerTruthyAnd (header : Option String) (p : String → Bool) : Bool :=
  match header with
  | none => false
  | some s => !(s == "") && p s

/-- Middleware `authenticateAgent`: reads the `X-Agent-Key` header; a missing or
non-`sk_`-prefixed value is rejected 401, an unknown key 401, a key of
a deactivated agent 403; otherwise `lastSeenAt` is updated and the
agent becomes the principal. -/
def authenticateAgent (db : DB) (apiKey : Option String) (now : Nat) :
    AuthResult :=
  match apiKey with
  | none => .reject 401 "Unauthorized: No API key provided"
  | some key =>
    if !(strStartsWith key "sk_") then
      .reject 401 "Unauthorized: No API key provided"
    else
      match getAgentByApiKey db key with
      | none => .reject 401 "Unauthorized: Invalid API key"
      | some agent =>
        if !agent.isActive then
          .reject 403 "Forbidden: Agent is deactivated"
        else
          .agentOk (updateAgentLastSeen db agent.id now) agent

/-- Middleware `authenticateHuman`: reads the `Authorization` header, requires a
`Bearer ` value, verifies the token and looks the subject up as a
human. -/
def authenticateHuman (db : DB) (verifyToken : String → Option String)
    (authHeader : Option String) : AuthResult :=
  match authHeader with
  | none => .reject 401 "Unauthorized: No token provided"
  | some header =>
    if !(strStartsWith header "Bearer ") then
      .reject 401 "Unauthorized: No token provided"
    else
      match verifyToken (header.drop 7) with
      | none => .reject 401 "Unauthorized: Invalid token"
      | some humanId =>
        match getHumanById db humanId with
        | none => .reject 401 "Unauthorized: User not found"
        | some human => .humanOk human

/-- Middleware `authenticateAny`: an `sk_`-shaped agent key takes precedence; then
a bearer token; otherwise 401. -/
def authenticateAny (db : DB) (verifyToken : String → Option String)
    (apiKey authHeader : Option String) (now : Nat) : AuthResult :=
  if headerTruthyAnd apiKey (fun k => strStartsWith k "sk_") then
    authenticateAgent db apiKey now
  else if headerTruthyAnd authHeader (fun h => strStartsWith h "Bearer ") then
    authenticateHuman db verifyToken authHeader
  else
    .reject 401 "Unauthorized: No credentials provided"

/-! ## Realtime registry (`server/routes.ts`: websocket handling) -/

/-- The mutable fields of a connected websocket client that the server
reads or writes: identity attached at the handshake, the two
room-interest sets, and whether the transport is currently writable
(`readyState === WebSocket.OPEN`).  Interest sets hold
`Option String` because `message.channelId` is `undefined` (`none`)
when the field is absent from a control frame. -/
structure WebSocketClient where
  userId : Option String
  agentId : Option String
  channels : Finset (Option String)
  workspaces : Finset (Option String)
  readyStateOpen : Bool
  deriving DecidableEq

/-- The two room kinds the `broadcast` helper dispatches on. -/
inductive RoomKind where
  | channel
  | workspace
  deriving Repr, DecidableEq

/-- Whether `broadcast(room, type, event)` sends the event to this
client: the transport must be open and the matching interest set must
contain the room. -/
def receivesBroadcast (client : WebSocketClient) (room : String)
    (type : RoomKind) : Bool :=
  client.readyStateOpen &&
    match type with
    | .channel => decide (some room ∈ client.channels)
    | .workspace => decide (some room ∈ client.workspaces)

/-- Function `broadcast`: the set of currently-registered clients that the event
is sent to (the code iterates `clients` and calls `send` exactly on the
ones satisfying `receivesBroadcast`). -/
def broadcast (clients : List WebSocketClient) (room : String)
    (type : RoomKind) : List WebSocketClient :=
  clients.filter (fun client => receivesBroadcast client room type)

/-- An inbound realtime frame after `JSON.parse`: either the parse
threw (`malformed`), or an object whose `type`, `channelId` and
`workspaceId` fields are read (absent fields are `none`). -/
inductive WsFrame where
  | malformed
  | ctrl (type : String) (channelId workspaceId : Option String)
  deriving Repr, DecidableEq

/-- The `ws.on("message", ...)` handler: a parse failure is swallowed,
a known `type` mutates the corresponding interest set, and any other
`type` falls through the `switch` with no effect.  The connection is
never terminated by this handler. -/
def handleWsMessage (ws : WebSocketClient) (frame : WsFrame) :
    WebSocketClient :=
  match frame with
  | .malformed => ws
  | .ctrl type channelId workspaceId =>
    if type == "join_channel" then
      { ws with channels := insert channelId ws.channels }
    else if type == "leave_channel" then
      { ws with channels := ws.channels.erase channelId }
    else if type == "join_workspace" then
      { ws with workspaces := insert workspaceId ws.workspaces }
    else if type == "leave_workspace" then
      { ws with workspaces := ws.workspaces.erase workspaceId }
    else ws

/-! ## HTTP routes (`server/routes.ts`, `registerRoutes`)

Routes behind `authenticateAny` receive the already-resolved principal.
A route outcome records the resulting database, the `broadcast` calls
made, and the response. -/

/-- The request principal attached by the auth middleware. -/
inductive Principal where
  | human (user : Human)
  | agent (agent : Agent)
  deriving Repr, DecidableEq

/-- An HTTP response: `res.status(s).json(body)` or
`res.status(s).json({message})`. -/
inductive RouteResponse (α : Type) where
  | json (status : Nat) (body : α)
  | error (status : Nat) (message : String)
  deriving Repr, DecidableEq

/-- Whether the response is a success (a JSON body, not an error). -/
def RouteResponse.isSuccess {α : Type} : RouteResponse α → Bool
  | .json _ _ => true
  | .error _ _ => false

/-- One `broadcast(room, type, event)` call; the event is identified by
its `type` tag. -/
structure BroadcastCall where
  room : String
  kind : RoomKind
  eventType : String
  deriving Repr, DecidableEq

/-- Outcome of a route handler. -/
structure RouteOutcome (α : Type) where
  db : DB
  broadcasts : List BroadcastCall
  response : RouteResponse α
  deriving Repr, DecidableEq

/-- JavaScript falsiness of an optional string body field, as in
`!content || typeof content !== "string"` for a field that, when
present, is a string: absent or empty is falsy. -/
def strFalsy : Option String → Bool
  | none => true
  | some s => s == ""

/-- The access check repeated verbatim in every `authenticateAny`
route: a human principal must have a `WorkspaceMember` row for the
target workspace, an agent principal must itself belong to the target
workspace.  Returns the error response produced on failure, `none` on
success. -/
def workspaceAccessError (db : DB) (p : Principal) (workspaceId : String) :
    Option (Nat × String) :=
  match p with
  | .human user =>
    match getWorkspaceMember db workspaceId user.id with
    | none => some (403, "Not a member of this workspace")
    | some _ => none
  | .agent agent =>
    if !(agent.workspaceId == workspaceId) then
      some (403, "Agent does not belong to this workspace")
    else none

/-- Route `POST /api/v1/channels/:channel_id/messages`: loads the channel
(404 if absent), checks workspace access and determines the author,
validates `content`, persists the message and broadcasts
`message.created` to the channel room. -/
def postChannelMessages (db : DB) (p : Principal) (channel_id : String)
    (content : Option String) (newId : String) (now : Nat) :
    RouteOutcome Message :=
  match getChannel db channel_id with
  | none => ⟨db, [], .error 404 "Channel not found"⟩
  | some channel =>
    match workspaceAccessError db p channel.workspaceId with
    | some (code, msg) => ⟨db, [], .error code msg⟩
    | none =>
      let authorType : String :=
        match p with | .human _ => "human" | .agent _ => "agent"
      let authorId : String :=
        match p with | .human user => user.id | .agent agent => agent.id
      if strFalsy content then
        ⟨db, [], .error 400 "Message content is required"⟩
      else
        let result := createMessage db
          { channelId := channel_id, authorType := authorType,
            authorId := some authorId, content := content.getD "",
            messageType := "TEXT", metadata := none } newId now
        ⟨result.1,
         [{ room := channel_id, kind := .channel,
            eventType := "message.created" }],
         .json 201 result.2⟩

/-- The body of `POST /api/v1/workspaces/:workspace_id/handoffs`.  The
handler destructures only `title`, `description`, `priority`,
`channelId` and `toHumanId`; a caller-supplied `status` field is
carried here to record that it is never read. -/
structure CreateHandoffBody where
  title : Option String
  description : Option String
  priority : Option String
  channelId : Option String
  toHumanId : Option String
  status : Option String
  deriving Repr, DecidableEq

/-- The four legal priority levels checked by the create-handoff route. -/
def validPriorities : List String := ["LOW", "MEDIUM", "HIGH", "URGENT"]

/-- Route `POST /api/v1/workspaces/:workspace_id/handoffs`: checks workspace
access (an agent principal becomes `fromAgentId`), requires a title,
validates a supplied priority against the four levels, persists the
handoff with status `"OPEN"` and priority defaulted to `"MEDIUM"`, and
broadcasts `handoff.created` to the workspace room. -/
def postWorkspaceHandoffs (db : DB) (p : Principal) (workspace_id : String)
    (body : CreateHandoffBody) (newId : String) (now : Nat) :
    RouteOutcome Handoff :=
  match workspaceAccessError db p workspace_id with
  | some (code, msg) => ⟨db, [], .error code msg⟩
  | none =>
    let fromAgentId : Option String :=
      match p with | .agent agent => some agent.id | .human _ => none
    if strFalsy body.title then
      ⟨db, [], .error 400 "Handoff title is required"⟩
    else if !(strFalsy body.priority) &&
        !(validPriorities.contains (body.priority.getD "")) then
      ⟨db, [], .error 400 "Invalid priority"⟩
    else
      let result := createHandoff db
        { workspaceId := workspace_id, title := body.title.getD "",
          description := body.description,
          priority := if strFalsy body.priority then "MEDIUM"
                      else body.priority.getD "",
          channelId := body.channelId, fromAgentId := fromAgentId,
          toHumanId := body.toHumanId, status := "OPEN" } newId now
      ⟨result.1,
       [{ room := workspace_id, kind := .workspace,
          eventType := "handoff.created" }],
       .json 201 result.2⟩

/-- The `validTransitions` table of the PATCH handoff route; `none`
models the `undefined` a `Record<string, string[]>` lookup yields for a
key outside the table. -/
def validTransitions (status : String) : Option (List String) :=
  if status == "OPEN" then some ["IN_PROGRESS"]
  else if status == "IN_PROGRESS" then some ["RESOLVED"]
  else if status == "RESOLVED" then some []
  else none

/-- Route `PATCH /api/v1/handoffs/:handoff_id`: loads the handoff (404 if
absent), checks access against the handoff's workspace, rejects any
requested status not in the allowed-next-states table with a 400
carrying both statuses, otherwise persists the transition and
broadcasts `handoff.updated` to the workspace room.  The
`validTransitions[handoff.status]?.includes(status)` optional chaining
is the `Option.getD []` below. -/
def patchHandoffs (db : DB) (p : Principal) (handoff_id status : String)
    (now : Nat) : RouteOutcome (Option Handoff) :=
  match getHandoff db handoff_id with
  | none => ⟨db, [], .error 404 "Handoff not found"⟩
  | some handoff =>
    match workspaceAccessError db p handoff.workspaceId with
    | some (code, msg) => ⟨db, [], .error code msg⟩
    | none =>
      if !(((validTransitions handoff.status).getD []).contains status) then
        ⟨db, [],
         .error 400 ("Invalid status transition from " ++ handoff.status
           ++ " to " ++ status)⟩
      else
        let result := updateHandoffStatus db handoff_id status now
        ⟨result.1,
         [{ room := handoff.workspaceId, kind := .workspace,
            eventType := "handoff.updated" }],
         .json 200 result.2⟩

/-! ## Concrete fixtures

A small concrete database and sessions, used to evaluate the
definitions on explicit inputs. -/

/-- A workspace fixture. -/
def wsAcme : Workspace := ⟨"w1", "Acme Corp", "acme-corp", 0⟩

/-- A human fixture. -/
def humanAlex : Human := ⟨"u1", "demo@agenthq.io", "hash", "Alex Chen", none, 0⟩

/-- Membership of `humanAlex` in `wsAcme`. -/
def memberAlexAcme : WorkspaceMember := ⟨"wm1", "w1", "u1", "owner", 0⟩

/-- An active agent in workspace `w1` with key `sk_live`. -/
def agentLive : Agent :=
  ⟨"a1", "w1", "CodeReview Bot", none, "sk_live", none, true, none, 0⟩

/-- A deactivated agent in workspace `w1` with key `sk_dead`. -/
def agentDead : Agent :=
  ⟨"a2", "w1", "Data Analyzer", none, "sk_dead", none, false, none, 0⟩

/-- An active agent in a different workspace `w2`. -/
def agentOther : Agent :=
  ⟨"a3", "w2", "Outsider", none, "sk_other", none, true, none, 0⟩

/-- A channel in workspace `w1`. -/
def chanGeneral : Channel := ⟨"c1", "w1", "general", none, false, 0⟩

/-- A message in channel `c1` created at instant 1. -/
def msgFirst : Message :=
  ⟨"m1", "c1", "human", some "u1", "first", "TEXT", none, 1⟩

/-- A message in channel `c1` created at instant 2. -/
def msgSecond : Message :=
  ⟨"m2", "c1", "human", some "u1", "second", "TEXT", none, 2⟩

/-- An `OPEN` handoff in workspace `w1`. -/
def handoffFresh : Handoff :=
  ⟨"h1", "w1", none, "Ticket", none, "OPEN", "MEDIUM", none, none, none, 0⟩

/-- A `RESOLVED` handoff in workspace `w1`. -/
def handoffDone : Handoff :=
  ⟨"h2", "w1", none, "Audit", none, "RESOLVED", "MEDIUM", none, some "u1",
   some 3, 1⟩

/-- The fixture database. -/
def fixtureDB : DB :=
  ⟨[humanAlex], [wsAcme], [memberAlexAcme], [agentLive, agentDead, agentOther],
   [chanGeneral], [msgFirst, msgSecond], [handoffFresh, handoffDone], []⟩

/-- A human fixture with no workspace membership rows. -/
def humanEve : Human := ⟨"u2", "eve@agenthq.io", "hash", "Eve", none, 0⟩

/-- A freshly-connected websocket client: open transport, empty
interest sets. -/
def emptyClient : WebSocketClient := ⟨none, none, ∅, ∅, true⟩

/-- A client subscribed to channel room `c1` and workspace room `w1`. -/
def clientSub : WebSocketClient :=
  ⟨none, none, {some "c1"}, {some "w1"}, true⟩

/-! ## Theorems -/

/-- C6: `broadcast` sends the event exactly to the currently-registered
clients whose transport is open and whose interest set of the event's
room kind contains the room — in particular never to a client
subscribed only to a different room of the same kind, and never to a
client whose transport is not writable (which is skipped with no
queuing). -/
theorem broadcast_delivery_iff (clients : List WebSocketClient)
    (room : String) (kind : RoomKind) (c : WebSocketClient) :
    c ∈ broadcast clients room kind ↔
      c ∈ clients ∧ c.readyStateOpen = true ∧
        ((kind = RoomKind.channel ∧ some room ∈ c.channels) ∨
         (kind = RoomKind.workspace ∧ some room ∈ c.workspaces)) := by
  cases kind <;>
    simp [broadcast, List.mem_filter, receivesBroadcast, and_assoc]

/-- C7: `join_*` and `leave_*` are idempotent set add/remove on the
session's interest sets, and a session that leaves a room it was
subscribed to and then rejoins it is exactly the session it was before
— hence delivered exactly the same future publishes. -/
theorem subscription_set_semantics (s : WebSocketClient)
    (cid wid : Option String) :
    (handleWsMessage (handleWsMessage s (.ctrl "join_channel" cid wid))
        (.ctrl "join_channel" cid wid)
      = handleWsMessage s (.ctrl "join_channel" cid wid))
    ∧ (handleWsMessage (handleWsMessage s (.ctrl "leave_channel" cid wid))
        (.ctrl "leave_channel" cid wid)
      = handleWsMessage s (.ctrl "leave_channel" cid wid))
    ∧ (handleWsMessage (handleWsMessage s (.ctrl "join_workspace" cid wid))
        (.ctrl "join_workspace" cid wid)
      = handleWsMessage s (.ctrl "join_workspace" cid wid))
    ∧ (handleWsMessage (handleWsMessage s (.ctrl "leave_workspace" cid wid))
        (.ctrl "leave_workspace" cid wid)
      = handleWsMessage s (.ctrl "leave_workspace" cid wid))
    ∧ (cid ∈ s.channels →
        handleWsMessage (handleWsMessage s (.ctrl "leave_channel" cid wid))
          (.ctrl "join_channel" cid wid) = s)
    ∧ (wid ∈ s.workspaces →
        handleWsMessage (handleWsMessage s (.ctrl "leave_workspace" cid wid))
          (.ctrl "join_workspace" cid wid) = s) := by
  refine ⟨?_, ?_, ?_, ?_, ?_, ?_⟩
  · simp [handleWsMessage, Finset.insert_idem]
  · simp [handleWsMessage, Finset.erase_idem]
  · simp [handleWsMessage, Finset.insert_idem]
  · simp [handleWsMessage, Finset.erase_idem]
  · intro h
    simp [handleWsMessage]
    rw [Finset.insert_erase h]
  · intro h
    simp [handleWsMessage]
    rw [Finset.insert_erase h]

/-- C7 witness: a concrete subscribed client, leave then rejoin of its
channel room and workspace room restores the original session. -/
theorem subscription_set_semantics_witness :
    handleWsMessage
        (handleWsMessage clientSub (.ctrl "leave_channel" (some "c1") (some "w1")))
        (.ctrl "join_channel" (some "c1") (some "w1")) = clientSub ∧
    handleWsMessage
        (handleWsMessage clientSub (.ctrl "leave_workspace" (some "c1") (some "w1")))
        (.ctrl "join_workspace" (some "c1") (some "w1")) = clientSub :=
  ⟨(subscription_set_semantics clientSub (some "c1") (some "w1")).2.2.2.2.1
      (by decide),
   (subscription_set_semantics clientSub (some "c1") (some "w1")).2.2.2.2.2
      (by decide)⟩

/-- Filtering with a predicate after filtering with its negation
yields nothing. -/
theorem filter_after_filter_neg {α : Type} (p : α → Bool) (l : List α) :
    (l.filter (fun x => !(p x))).filter p = [] := by
  induction l with
  | nil => rfl
  | cons x xs ih =>
    by_cases h : p x <;> simp [List.filter, h, ih]

/-- C8: two successive `setMemory` calls for the same `(agentId, key)`
pair leave exactly one matching row in the table, and it holds the
second value — the delete-then-insert upsert never produces
duplicates. -/
theorem setMemory_upsert_no_duplicates (db : DB) (a k v1 v2 : String)
    (e1 e2 : Option Nat) (id1 id2 : String) (t1 t2 : Nat) :
    ((setMemory (setMemory db ⟨a, k, v1, e1⟩ id1 t1).1
        ⟨a, k, v2, e2⟩ id2 t2).1).memories.filter
          (fun m => m.agentId == a && m.key == k)
      = [⟨id2, a, k, v2, e2, t2, t2⟩] := by
  simp only [setMemory, List.filter_append]
  rw [List.filter_filter]
  simp [filter_after_filter_neg, List.filter]

/-- C9: evaluation of `getMessagesForChannel` at a channel holding a
message created at instant 1 and one created at instant 2, with the
`before` cursor naming the first message: the result still contains
both messages (the second of which is not created before the cursor's
message), because the implementation never uses the declared `before`
parameter — the result does not depend on the cursor at all. -/
theorem getMessagesForChannel_ignores_before :
    getMessagesForChannel fixtureDB "c1" 50 (some "m1")
        = [msgFirst, msgSecond]
    ∧ ∀ (db : DB) (channelId : String) (limit : Nat)
        (b1 b2 : Option String),
        getMessagesForChannel db channelId limit b1
          = getMessagesForChannel db channelId limit b2 :=
  ⟨by decide, fun _ _ _ _ _ => rfl⟩

/-- C10 counterexample: a `join_channel` control frame that lacks its
`channelId` field is not ignored — applied to a fresh client it changes
the channel-interest set, which gains the `undefined` room id. -/
theorem joinChannel_missing_id_changes_interest :
    handleWsMessage emptyClient (.ctrl "join_channel" none none)
        ≠ emptyClient
    ∧ (handleWsMessage emptyClient (.ctrl "join_channel" none none)).channels
        = {none} := by
  constructor
  · decide
  · decide

/-- C10 amended: frames that fail to parse or carry an unknown `type`
are silently ignored (the session is unchanged and the connection is
never terminated — the handler is total); a `join_channel`/`leave_*`
frame lacking its room-id field is also processed without terminating
the connection, but it inserts (or erases) the `undefined` room id in
the interest set; since every published room is a real id, delivery of
published events is unaffected. -/
theorem malformed_frames_silently_ignored (s : WebSocketClient)
    (t : String) (cid wid : Option String) :
    (handleWsMessage s .malformed = s)
    ∧ (t ∉ (["join_channel", "leave_channel", "join_workspace",
             "leave_workspace"] : List String) →
        handleWsMessage s (.ctrl t cid wid) = s)
    ∧ (handleWsMessage s (.ctrl "join_channel" none wid)
        = { s with channels := insert none s.channels })
    ∧ (∀ room kind,
        receivesBroadcast (handleWsMessage s (.ctrl "join_channel" none wid))
            room kind
          = receivesBroadcast s room kind)
    ∧ (∀ room kind,
        receivesBroadcast (handleWsMessage s (.ctrl "leave_channel" none wid))
            room kind
          = receivesBroadcast s room kind)
    ∧ (∀ room kind,
        receivesBroadcast (handleWsMessage s (.ctrl "join_workspace" cid none))
            room kind
          = receivesBroadcast s room kind)
    ∧ (∀ room kind,
        receivesBroadcast (handleWsMessage s (.ctrl "leave_workspace" cid none))
            room kind
          = receivesBroadcast s room kind) := by
  refine ⟨rfl, ?_, ?_, ?_, ?_, ?_, ?_⟩
  · intro h
    simp only [List.mem_cons, List.not_mem_nil, or_false, not_or] at h
    obtain ⟨h1, h2, h3, h4⟩ := h
    simp [handleWsMessage, h1, h2, h3, h4]
  · simp [handleWsMessage]
  · intro room kind
    cases kind <;> simp [handleWsMessage, receivesBroadcast, Finset.mem_insert]
  · intro room kind
    cases kind <;> simp [handleWsMessage, receivesBroadcast, Finset.mem_erase]
  · intro room kind
    cases kind <;> simp [handleWsMessage, receivesBroadcast, Finset.mem_insert]
  · intro room kind
    cases kind <;> simp [handleWsMessage, receivesBroadcast, Finset.mem_erase]

/-- C10 amended witness: a concrete `ping` frame and a parse failure
leave a concrete client unchanged. -/
theorem malformed_frames_silently_ignored_witness :
    handleWsMessage clientSub .malformed = clientSub ∧
    handleWsMessage clientSub (.ctrl "ping" (some "c1") none) = clientSub :=
  ⟨(malformed_frames_silently_ignored clientSub "ping" (some "c1") none).1,
   (malformed_frames_silently_ignored clientSub "ping" (some "c1") none).2.1
      (by decide)⟩

/-- C4: an `sk_`-shaped agent key takes precedence over any bearer
token in `authenticateAny` and is resolved by exact lookup: an unknown
key is rejected 401 (Unauthenticated), a key of a deactivated agent is
rejected 403 (Forbidden), a key of an active agent authenticates the
agent with its `lastSeenAt` updated to the current instant, and a
request presenting neither credential is rejected 401. -/
theorem agent_key_auth (db : DB) (vt : String → Option String)
    (k : String) (authHeader : Option String) (now : Nat)
    (hk : strStartsWith k "sk_" = true) :
    (authenticateAny db vt (some k) authHeader now
        = authenticateAgent db (some k) now)
    ∧ (getAgentByApiKey db k = none →
        authenticateAgent db (some k) now
          = .reject 401 "Unauthorized: Invalid API key")
    ∧ (∀ a, getAgentByApiKey db k = some a →
        (a.isActive = false →
          authenticateAgent db (some k) now
            = .reject 403 "Forbidden: Agent is deactivated")
        ∧ (a.isActive = true →
          authenticateAgent db (some k) now
            = .agentOk (updateAgentLastSeen db a.id now) a))
    ∧ (∀ (id2 : String) (now2 : Nat) (row : Agent),
        row ∈ (updateAgentLastSeen db id2 now2).agents → row.id = id2 →
        row.lastSeenAt = some now2)
    ∧ (authenticateAny db vt none none now
        = .reject 401 "Unauthorized: No credentials provided") := by
  have hne : (k == "") = false := by
    cases he : k == ""
    · rfl
    · rw [eq_of_beq he] at hk
      exact absurd hk (by decide)
  refine ⟨?_, ?_, ?_, ?_, rfl⟩
  · simp [authenticateAny, headerTruthyAnd, hne, hk]
  · intro h
    simp [authenticateAgent, hk, h]
  · intro a ha
    refine ⟨?_, ?_⟩ <;> intro hact <;> simp [authenticateAgent, hk, ha, hact]
  · intro id2 now2 row hrow hid
    simp only [updateAgentLastSeen, List.mem_map] at hrow
    obtain ⟨a0, _, hfa⟩ := hrow
    by_cases h0 : (a0.id == id2) = true
    · simp only [h0, if_true] at hfa
      rw [← hfa]
    · simp only [h0, if_false, Bool.false_eq_true] at hfa
      rw [← hfa] at hid
      exact absurd (beq_iff_eq.mpr hid) h0

/-- C4 witness: on the fixture database, an unknown key is rejected
401 even with a bearer token also present, the deactivated agent's key
is rejected 403, and the active agent's key authenticates it with the
`lastSeenAt` side effect applied. -/
theorem agent_key_auth_witness :
    authenticateAny fixtureDB (fun _ => none) (some "sk_unknown")
        (some "Bearer t") 7
      = .reject 401 "Unauthorized: Invalid API key"
    ∧ authenticateAgent fixtureDB (some "sk_dead") 7
      = .reject 403 "Forbidden: Agent is deactivated"
    ∧ authenticateAgent fixtureDB (some "sk_live") 7
      = .agentOk (updateAgentLastSeen fixtureDB "a1" 7) agentLive := by
  have H1 := agent_key_auth fixtureDB (fun _ => none) "sk_unknown"
    (some "Bearer t") 7 (by decide)
  have H2 := agent_key_auth fixtureDB (fun _ => none) "sk_dead" none 7
    (by decide)
  have H3 := agent_key_auth fixtureDB (fun _ => none) "sk_live" none 7
    (by decide)
  refine ⟨?_, ?_, ?_⟩
  · rw [H1.1]
    exact H1.2.1 (by decide)
  · exact (H2.2.2.1 agentDead (by decide)).1 (by decide)
  · exact (H3.2.2.1 agentLive (by decide)).2 (by decide)

/-- C3: a created handoff always starts with status `"OPEN"` — the
outcome does not depend on any `status` field in the request body at
all — and its priority is the caller-supplied one when that is one of
the four valid levels, `"MEDIUM"` when no priority is supplied, while
a supplied out-of-enum priority fails validation. -/
theorem createHandoff_always_open (db : DB) (p : Principal)
    (wsid : String) (body : CreateHandoffBody) (newId : String) (now : Nat)
    (hacc : workspaceAccessError db p wsid = none)
    (htitle : strFalsy body.title = false) :
    (∀ h, (postWorkspaceHandoffs db p wsid body newId now).response
          = .json 201 h →
        h.status = "OPEN"
        ∧ h.priority ∈ validPriorities
        ∧ (strFalsy body.priority = true → h.priority = "MEDIUM")
        ∧ (strFalsy body.priority = false →
            h.priority = body.priority.getD ""))
    ∧ ((postWorkspaceHandoffs db p wsid body newId now).response.isSuccess
          = true ↔
        (strFalsy body.priority = true
          ∨ body.priority.getD "" ∈ validPriorities))
    ∧ (∀ st, postWorkspaceHandoffs db p wsid { body with status := st }
          newId now
        = postWorkspaceHandoffs db p wsid body newId now) := by
  by_cases hsf : strFalsy body.priority = true
  · have Hout : postWorkspaceHandoffs db p wsid body newId now
        = ⟨{ db with handoffs := db.handoffs ++
              [⟨newId, wsid, body.channelId, body.title.getD "",
                body.description, "OPEN", "MEDIUM",
                (match p with
                  | .agent agent => some agent.id | .human _ => none),
                body.toHumanId, none, now⟩] },
           [{ room := wsid, kind := .workspace,
              eventType := "handoff.created" }],
           .json 201 ⟨newId, wsid, body.channelId, body.title.getD "",
             body.description, "OPEN", "MEDIUM",
             (match p with
               | .agent agent => some agent.id | .human _ => none),
             body.toHumanId, none, now⟩⟩ := by
      simp [postWorkspaceHandoffs, createHandoff, hacc, htitle, hsf]
      cases p <;> rfl
    refine ⟨?_, ?_, fun st => rfl⟩
    · intro h hresp
      rw [Hout] at hresp
      injection hresp with h1 h2
      subst h2
      refine ⟨rfl, by simp [validPriorities], fun _ => rfl, ?_⟩
      intro hc
      rw [hsf] at hc
      cases hc
    · rw [Hout]
      simp [RouteResponse.isSuccess, hsf]
  · have hsfF : strFalsy body.priority = false := by
      simpa using hsf
    by_cases hmem : validPriorities.contains (body.priority.getD "") = true
    · have hmemP : body.priority.getD "" ∈ validPriorities := by
        simpa [List.contains] using hmem
      have Hout : postWorkspaceHandoffs db p wsid body newId now
          = ⟨{ db with handoffs := db.handoffs ++
                [⟨newId, wsid, body.channelId, body.title.getD "",
                  body.description, "OPEN", body.priority.getD "",
                  (match p with
                    | .agent agent => some agent.id | .human _ => none),
                  body.toHumanId, none, now⟩] },
             [{ room := wsid, kind := .workspace,
                eventType := "handoff.created" }],
             .json 201 ⟨newId, wsid, body.channelId, body.title.getD "",
               body.description, "OPEN", body.priority.getD "",
               (match p with
                 | .agent agent => some agent.id | .human _ => none),
               body.toHumanId, none, now⟩⟩ := by
        simp [postWorkspaceHandoffs, createHandoff, hacc, htitle, hsfF, hmemP]
        cases p <;> rfl
      refine ⟨?_, ?_, fun st => rfl⟩
      · intro h hresp
        rw [Hout] at hresp
        injection hresp with h1 h2
        subst h2
        refine ⟨rfl, hmemP, ?_, fun _ => rfl⟩
        intro hc
        rw [hsfF] at hc
        cases hc
      · rw [Hout]
        simp [RouteResponse.isSuccess, hmemP]
    · have hmemF : validPriorities.contains (body.priority.getD "") = false := by
        simpa using hmem
      have hmemP : body.priority.getD "" ∉ validPriorities := by
        simpa [List.contains] using hmemF
      have Hout : postWorkspaceHandoffs db p wsid body newId now
          = ⟨db, [], .error 400 "Invalid priority"⟩ := by
        simp [postWorkspaceHandoffs, hacc, htitle, hsfF, hmemP]
      refine ⟨?_, ?_, fun st => rfl⟩
      · intro h hresp
        rw [Hout] at hresp
        simp at hresp
      · rw [Hout]
        simp [RouteResponse.isSuccess, hsfF, hmemP]

/-- C3 witness: on the fixture database an agent-created handoff with a
caller-supplied `status:"RESOLVED"` and no priority comes back with
status `"OPEN"` and priority `"MEDIUM"`. -/
theorem createHandoff_always_open_witness :
    (postWorkspaceHandoffs fixtureDB (.agent agentLive) "w1"
        { title := some "Task", description := none, priority := none,
          channelId := none, toHumanId := none,
          status := some "RESOLVED" } "h9" 4).response
      = .json 201 ⟨"h9", "w1", none, "Task", none, "OPEN", "MEDIUM",
          some "a1", none, none, 4⟩
    ∧ ("OPEN" : String) = "OPEN"
    ∧ ("MEDIUM" : String) ∈ validPriorities := by
  have H := createHandoff_always_open fixtureDB (.agent agentLive) "w1"
    { title := some "Task", description := none, priority := none,
      channelId := none, toHumanId := none, status := some "RESOLVED" }
    "h9" 4 (by decide) (by decide)
  have h2 := H.1 ⟨"h9", "w1", none, "Task", none, "OPEN", "MEDIUM",
    some "a1", none, none, 4⟩ (by decide)
  exact ⟨by decide, h2.1, h2.2.1⟩

/-- C5: for the message-creation and handoff-update routes, an agent
principal passes the access check exactly when its own `workspaceId`
equals the target entity's `workspaceId`; on a mismatch the request is
rejected 403, the database is unchanged and nothing is broadcast.  A
human principal passes exactly when a `WorkspaceMember` row exists for
the target workspace. -/
theorem workspace_scoping (db : DB) (now : Nat) (newId : String) :
    (∀ (a : Agent) (chid : String) (ch : Channel) (content : Option String),
        getChannel db chid = some ch →
        (¬ a.workspaceId = ch.workspaceId →
          postChannelMessages db (.agent a) chid content newId now
            = ⟨db, [], .error 403 "Agent does not belong to this workspace"⟩)
        ∧ (a.workspaceId = ch.workspaceId → strFalsy content = false →
          (postChannelMessages db (.agent a) chid content newId
              now).response.isSuccess = true))
    ∧ (∀ (u : Human) (chid : String) (ch : Channel) (content : Option String),
        getChannel db chid = some ch →
        (getWorkspaceMember db ch.workspaceId u.id = none →
          postChannelMessages db (.human u) chid content newId now
            = ⟨db, [], .error 403 "Not a member of this workspace"⟩)
        ∧ (∀ m, getWorkspaceMember db ch.workspaceId u.id = some m →
            strFalsy content = false →
            (postChannelMessages db (.human u) chid content newId
                now).response.isSuccess = true))
    ∧ (∀ (a : Agent) (hid : String) (h : Handoff) (st : String),
        getHandoff db hid = some h → ¬ a.workspaceId = h.workspaceId →
        patchHandoffs db (.agent a) hid st now
          = ⟨db, [], .error 403 "Agent does not belong to this workspace"⟩) := by
  refine ⟨?_, ?_, ?_⟩
  · intro a chid ch content hch
    refine ⟨?_, ?_⟩
    · intro hne
      have hb : (a.workspaceId == ch.workspaceId) = false :=
        beq_eq_false_iff_ne.mpr hne
      simp [postChannelMessages, hch, workspaceAccessError, hb]
    · intro heq hc
      have hb : (a.workspaceId == ch.workspaceId) = true :=
        beq_iff_eq.mpr heq
      simp [postChannelMessages, hch, workspaceAccessError, hb, hc,
        RouteResponse.isSuccess]
  · intro u chid ch content hch
    refine ⟨?_, ?_⟩
    · intro hmem
      simp [postChannelMessages, hch, workspaceAccessError, hmem]
    · intro m hmem hc
      simp [postChannelMessages, hch, workspaceAccessError, hmem, hc,
        RouteResponse.isSuccess]
  · intro a hid h st hget hne
    have hb : (a.workspaceId == h.workspaceId) = false :=
      beq_eq_false_iff_ne.mpr hne
    simp [patchHandoffs, hget, workspaceAccessError, hb]

/-- C5 witness: on the fixture database, the `w2` agent posting to the
`w1` channel and patching the `w1` handoff gets 403 with no persisted
message and no broadcast; the `w1` agent and the member human can post;
the non-member human gets 403. -/
theorem workspace_scoping_witness :
    postChannelMessages fixtureDB (.agent agentOther) "c1" (some "hi")
        "m9" 4
      = ⟨fixtureDB, [], .error 403 "Agent does not belong to this workspace"⟩
    ∧ (postChannelMessages fixtureDB (.agent agentLive) "c1" (some "hi")
        "m9" 4).response.isSuccess = true
    ∧ postChannelMessages fixtureDB (.human humanEve) "c1" (some "hi")
        "m9" 4
      = ⟨fixtureDB, [], .error 403 "Not a member of this workspace"⟩
    ∧ (postChannelMessages fixtureDB (.human humanAlex) "c1" (some "hi")
        "m9" 4).response.isSuccess = true
    ∧ patchHandoffs fixtureDB (.agent agentOther) "h1" "IN_PROGRESS" 4
      = ⟨fixtureDB, [], .error 403 "Agent does not belong to this workspace"⟩ := by
  have H := workspace_scoping fixtureDB 4 "m9"
  refine ⟨?_, ?_, ?_, ?_, ?_⟩
  · exact (H.1 agentOther "c1" chanGeneral (some "hi") (by decide)).1
      (by decide)
  · exact (H.1 agentLive "c1" chanGeneral (some "hi") (by decide)).2
      (by decide) (by decide)
  · exact (H.2.1 humanEve "c1" chanGeneral (some "hi") (by decide)).1
      (by decide)
  · exact (H.2.1 humanAlex "c1" chanGeneral (some "hi") (by decide)).2
      memberAlexAcme (by decide) (by decide)
  · exact H.2.2 agentOther "h1" handoffFresh "IN_PROGRESS" (by decide)
      (by decide)

/-- The allowed-next-states check of the PATCH route decides exactly
the two forward edges of the handoff state machine, for any current
status in the `handoff_status` enum. -/
theorem validTransitions_contains_iff (cur req : String)
    (henum : cur = "OPEN" ∨ cur = "IN_PROGRESS" ∨ cur = "RESOLVED") :
    (((validTransitions cur).getD []).contains req = true) ↔
      ((cur = "OPEN" ∧ req = "IN_PROGRESS")
        ∨ (cur = "IN_PROGRESS" ∧ req = "RESOLVED")) := by
  rcases henum with h1 | h1 | h1 <;> subst h1 <;>
    simp [validTransitions, List.contains]

/-- C1: given the handoff exists and the principal passes the access
check, the PATCH status-transition request succeeds exactly when the
(current, requested) pair is (OPEN, IN_PROGRESS) or
(IN_PROGRESS, RESOLVED); every other requested status is rejected with
a 400 whose message carries the current and requested status, with the
database (hence the handoff's status and `resolvedAt`) unchanged and
nothing broadcast. -/
theorem patch_transition_iff (db : DB) (p : Principal)
    (hid reqStatus : String) (now : Nat) (h : Handoff)
    (hget : getHandoff db hid = some h)
    (henum : h.status = "OPEN" ∨ h.status = "IN_PROGRESS"
      ∨ h.status = "RESOLVED")
    (hacc : workspaceAccessError db p h.workspaceId = none) :
    ((patchHandoffs db p hid reqStatus now).response.isSuccess = true ↔
      ((h.status = "OPEN" ∧ reqStatus = "IN_PROGRESS")
        ∨ (h.status = "IN_PROGRESS" ∧ reqStatus = "RESOLVED")))
    ∧ (¬ ((h.status = "OPEN" ∧ reqStatus = "IN_PROGRESS")
        ∨ (h.status = "IN_PROGRESS" ∧ reqStatus = "RESOLVED")) →
      patchHandoffs db p hid reqStatus now =
        ⟨db, [],
         .error 400 ("Invalid status transition from " ++ h.status
           ++ " to " ++ reqStatus)⟩) := by
  have hkey := validTransitions_contains_iff h.status reqStatus henum
  by_cases hc : (((validTransitions h.status).getD []).contains reqStatus)
      = true
  · have hcM : reqStatus ∈ (validTransitions h.status).getD [] := by
      simpa [List.contains] using hc
    have Hout : patchHandoffs db p hid reqStatus now
        = ⟨(updateHandoffStatus db hid reqStatus now).1,
           [{ room := h.workspaceId, kind := .workspace,
              eventType := "handoff.updated" }],
           .json 200 (updateHandoffStatus db hid reqStatus now).2⟩ := by
      simp [patchHandoffs, hget, hacc, hcM]
    refine ⟨?_, ?_⟩
    · rw [Hout]
      constructor
      · intro _
        exact hkey.mp hc
      · intro _
        rfl
    · intro hnot
      exact absurd (hkey.mp hc) hnot
  · have hcM : reqStatus ∉ (validTransitions h.status).getD [] := by
      simpa [List.contains] using hc
    have Hout : patchHandoffs db p hid reqStatus now
        = ⟨db, [],
           .error 400 ("Invalid status transition from " ++ h.status
             ++ " to " ++ reqStatus)⟩ := by
      simp [patchHandoffs, hget, hacc, hcM]
    refine ⟨?_, fun _ => Hout⟩
    rw [Hout]
    simp only [RouteResponse.isSuccess, Bool.false_eq_true, false_iff]
    intro hp
    exact hc (hkey.mpr hp)

/-- C1 witness: on the fixture database, requesting RESOLVED on the
OPEN handoff is rejected with the diagnostic message and no change,
while requesting IN_PROGRESS succeeds. -/
theorem patch_transition_iff_witness :
    patchHandoffs fixtureDB (.agent agentLive) "h1" "RESOLVED" 5
      = ⟨fixtureDB, [],
         .error 400 "Invalid status transition from OPEN to RESOLVED"⟩
    ∧ (patchHandoffs fixtureDB (.agent agentLive) "h1" "IN_PROGRESS"
        5).response.isSuccess = true := by
  have H1 := patch_transition_iff fixtureDB (.agent agentLive) "h1"
    "RESOLVED" 5 handoffFresh (by decide) (by decide) (by decide)
  have H2 := patch_transition_iff fixtureDB (.agent agentLive) "h1"
    "IN_PROGRESS" 5 handoffFresh (by decide) (by decide) (by decide)
  exact ⟨H1.2 (by decide), H2.1.mpr (by decide)⟩

/-- A `find?` by id over the row update performed by
`updateHandoffStatus` with requested status RESOLVED finds the updated
form of the row `find?` found before the update. -/
theorem find_update_by_id (l : List Handoff) (hid : String)
    (now : Nat) (h : Handoff)
    (hfind : l.find? (fun x => x.id == hid) = some h) :
    (l.map (fun x =>
        if x.id == hid then
          { x with status := "RESOLVED", resolvedAt := some now }
        else x)).find? (fun x => x.id == hid)
      = some { h with status := "RESOLVED", resolvedAt := some now } := by
  have hp : (h.id == hid) = true :=
    @List.find?_some _ (fun x : Handoff => x.id == hid) h l hfind
  have hfun : ((fun x : Handoff => x.id == hid) ∘ (fun x =>
      if x.id == hid then
        { x with status := "RESOLVED", resolvedAt := some now }
      else x)) = (fun x : Handoff => x.id == hid) := by
    funext x
    by_cases hx : (x.id == hid) = true
    · simp only [Function.comp_apply, if_pos hx]
    · simp only [Function.comp_apply, if_neg hx]
  rw [List.find?_map, hfun, hfind, Option.map_some', if_pos hp]

/-- C2: `resolvedAt` over the handoff lifecycle — a freshly created
handoff row has `resolvedAt = null`; a status update whose requested
status is not RESOLVED leaves every row's `resolvedAt` untouched; the
update to RESOLVED stamps the handoff's `resolvedAt` with the current
instant; and once a handoff is RESOLVED no PATCH request ever succeeds
or changes the database again, so the stamp is assigned at most once,
on the RESOLVED transition. -/
theorem resolvedAt_lifecycle :
    (∀ (db : DB) (ins : InsertHandoff) (newId : String) (now : Nat),
        (createHandoff db ins newId now).2.resolvedAt = none
        ∧ (createHandoff db ins newId now).1.handoffs
            = db.handoffs ++ [(createHandoff db ins newId now).2])
    ∧ (∀ (db : DB) (hid status : String) (now : Nat),
        status ≠ "RESOLVED" →
        (updateHandoffStatus db hid status now).1.handoffs.map
            Handoff.resolvedAt
          = db.handoffs.map Handoff.resolvedAt)
    ∧ (∀ (db : DB) (hid : String) (now : Nat) (h : Handoff),
        getHandoff db hid = some h →
        getHandoff (updateHandoffStatus db hid "RESOLVED" now).1 hid
          = some { h with status := "RESOLVED", resolvedAt := some now })
    ∧ (∀ (db : DB) (p : Principal) (hid st : String) (now : Nat)
        (h : Handoff),
        getHandoff db hid = some h → h.status = "RESOLVED" →
        (patchHandoffs db p hid st now).db = db
        ∧ (patchHandoffs db p hid st now).broadcasts = []
        ∧ (patchHandoffs db p hid st now).response.isSuccess = false) := by
  refine ⟨fun db ins newId now => ⟨rfl, rfl⟩, ?_, ?_, ?_⟩
  · intro db hid status now hne
    have hs : (status == "RESOLVED") = false := beq_eq_false_iff_ne.mpr hne
    simp only [updateHandoffStatus, List.map_map]
    refine List.map_congr_left ?_
    intro x _
    simp only [Function.comp_apply, hs, Bool.false_eq_true, if_false]
    split <;> rfl
  · intro db hid now h hget
    have := find_update_by_id db.handoffs hid now h hget
    simpa [getHandoff, updateHandoffStatus] using this
  · intro db p hid st now h hget hres
    have hcM : st ∉ (validTransitions h.status).getD [] := by
      simp [hres, validTransitions]
    rcases haccE : workspaceAccessError db p h.workspaceId with _ | cm
    · have Hout : patchHandoffs db p hid st now
          = ⟨db, [],
             .error 400 ("Invalid status transition from " ++ h.status
               ++ " to " ++ st)⟩ := by
        simp [patchHandoffs, hget, haccE, hcM]
      rw [Hout]
      exact ⟨rfl, rfl, rfl⟩
    · have Hout : patchHandoffs db p hid st now
          = ⟨db, [], .error cm.1 cm.2⟩ := by
        simp [patchHandoffs, hget, haccE]
      rw [Hout]
      exact ⟨rfl, rfl, rfl⟩

/-- C2 witness: on the fixture database, moving the OPEN handoff to
IN_PROGRESS leaves every `resolvedAt` untouched, resolving it from
IN_PROGRESS stamps `resolvedAt` with the current instant, and a PATCH
on the already-RESOLVED handoff changes nothing. -/
theorem resolvedAt_lifecycle_witness :
    (updateHandoffStatus fixtureDB "h1" "IN_PROGRESS" 5).1.handoffs.map
        Handoff.resolvedAt
      = fixtureDB.handoffs.map Handoff.resolvedAt
    ∧ getHandoff (updateHandoffStatus fixtureDB "h1" "RESOLVED" 6).1 "h1"
      = some { handoffFresh with status := "RESOLVED", resolvedAt := some 6 }
    ∧ (patchHandoffs fixtureDB (.agent agentLive) "h2" "IN_PROGRESS" 7).db
      = fixtureDB :=
  ⟨resolvedAt_lifecycle.2.1 fixtureDB "h1" "IN_PROGRESS" 5 (by decide),
   resolvedAt_lifecycle.2.2.1 fixtureDB "h1" 6 handoffFresh (by decide),
   (resolvedAt_lifecycle.2.2.2 fixtureDB (.agent agentLive) "h2"
     "IN_PROGRESS" 7 handoffDone (by decide) (by decide)).1⟩

end AgentHQ
